import Mathlib

/-!
Shallow embedding of the host-side pathtracer orchestration code
(`src/common.rs` and `src/pathtracing/pathtracer.rs`).

Modelling conventions:
* `u32` fields are `Nat`; where the Rust code could wrap we write the
  increment modulo `2 ^ 32` explicitly.
* `f32` arithmetic on the accumulation weight and the resolution factor is
  modelled over `ℚ` (the division `1.0 / sample` and the cast `u32 → f32`
  are exact for every sample index reachable with the default
  `max_sample_count = 1024`, well below `2 ^ 24`).
* GPU objects (textures, buffers, bind groups, pipelines) are identified by
  `Nat` identity tags; creating a resource consumes a caller-supplied fresh
  tag, mirroring the fact that `wgpu` hands back a brand-new object.
* Command recording (`wgpu::CommandEncoder` / `ComputePass`) is modelled as
  the list of commands a call appends.
-/

namespace Pathtracing

/-- Identity tag of a GPU-side object (texture, buffer, sampler, ...). -/
abbrev ResId := Nat

/-- Model of `wgpu::SurfaceConfiguration`: the fields the embedded code
reads or writes (`width`, `height`). -/
structure SurfaceConfig where
  width : Nat
  height : Nat
deriving Repr, DecidableEq

/-- Model of `common::Texture`: an identity tag plus the 2D size. -/
structure Texture where
  id : ResId
  width : Nat
  height : Nat
deriving Repr, DecidableEq

/-- Model of the camera/environment collaborators: `EnvMap` exposes a view
and a sampler binding. -/
structure EnvMapModel where
  view : ResId
  sampler : ResId
deriving Repr, DecidableEq

/-- Model of `pathtracer::Globals` (`#[repr(C)]`, pushed as push
constants): `sample: u32`, `weight: f32`, `bounces: u32`,
`contribution_factor: f32`. -/
structure Globals where
  sample : Nat
  weight : ℚ
  bounces : Nat
  contribution_factor : ℚ
deriving Repr, DecidableEq

/-- `Globals::default()`: sample 0, weight 0.0, bounces 8,
contribution_factor 4.0. -/
def Globals.default : Globals :=
  { sample := 0, weight := 0, bounces := 8, contribution_factor := 4 }

/-- The global bind group (`Pathtracer::create_global_group`) as a value
object recording which resource each of the five bindings references. -/
structure BindGroup where
  outputView : ResId
  cameraBuffer : ResId
  ldsBuffer : ResId
  envmapView : ResId
  envmapSampler : ResId
deriving Repr, DecidableEq

/-- Model of the `Pathtracer` struct. -/
structure Pathtracer where
  pipeline : ResId
  global_layout : ResId
  global_group : BindGroup
  output : Texture
  lds_buffer : ResId
  globals : Globals
  resolution_factor : ℚ
  max_sample_count : Nat
deriving Repr, DecidableEq

/-- `Pathtracer::COMPUTE_SIZE` (the 8×8 tile). -/
def COMPUTE_SIZE : Nat := 8

/-- `Pathtracer::LDS_PER_BOUNCE`. -/
def LDS_PER_BOUNCE : Nat := 2

/-- One recorded GPU command, as issued by `Pathtracer::dispatch`. -/
inductive GPUCommand where
  | beginComputePass
  | setPipeline (pipeline : ResId)
  | setGlobalBindGroup (group : BindGroup)
  | setSceneBindGroup (group : ResId)
  | setPushConstants (globals : Globals)
  | dispatchWorkgroups (x y z : Nat)
deriving Repr, DecidableEq

/-- `Pathtracer::create_output_texture`: scale the surface size by the
resolution factor (f32 multiply, then `as_uvec2`, i.e. truncation toward
zero saturating at 0 — `Nat.floor` over ℚ), then round down to a multiple
of `COMPUTE_SIZE` by integer division. `fresh` is the identity of the new
texture. -/
def create_output_texture (config : SurfaceConfig) (resolution_factor : ℚ)
    (fresh : ResId) : Texture :=
  { id := fresh
    width := ⌊(config.width : ℚ) * resolution_factor⌋₊ / COMPUTE_SIZE * COMPUTE_SIZE
    height := ⌊(config.height : ℚ) * resolution_factor⌋₊ / COMPUTE_SIZE * COMPUTE_SIZE }

/-- `Pathtracer::create_global_group`: wire the five bindings to the given
resources. -/
def create_global_group (output : Texture) (cameraBuffer : ResId)
    (lds_buffer : ResId) (envmap : EnvMapModel) : BindGroup :=
  { outputView := output.id
    cameraBuffer := cameraBuffer
    ldsBuffer := lds_buffer
    envmapView := envmap.view
    envmapSampler := envmap.sampler }

/-- The f32 literal `0.3` (`resolution_factor` in `Pathtracer::new`): the
nearest binary32 value, `5033165 / 2^24`. -/
def defaultResolutionFactor : ℚ := 5033165 / 16777216

/-- `Pathtracer::new`: identity tags are handed out sequentially (output
texture 0, LDS buffer 1, layout 2, pipeline 3); globals start at
`Globals::default()`, `max_sample_count = 1024`, and the global group is
built against the freshly created output texture and LDS buffer. -/
def Pathtracer.new (config : SurfaceConfig) (cameraBuffer : ResId)
    (envmap : EnvMapModel) : Pathtracer :=
  let output := create_output_texture config defaultResolutionFactor 0
  { pipeline := 3
    global_layout := 2
    global_group := create_global_group output cameraBuffer 1 envmap
    output := output
    lds_buffer := 1
    globals := Globals.default
    resolution_factor := defaultResolutionFactor
    max_sample_count := 1024 }

/-- `Pathtracer::resize`: replaces `self.output` with a newly created
texture (identity `fresh`); no other field is touched. -/
def Pathtracer.resize (s : Pathtracer) (config : SurfaceConfig)
    (fresh : ResId) : Pathtracer :=
  { s with output := create_output_texture config s.resolution_factor fresh }

/-- `Pathtracer::invalidate`: reset `globals.sample` to 0. -/
def Pathtracer.invalidate (s : Pathtracer) : Pathtracer :=
  { s with globals := { s.globals with sample := 0 } }

/-- `Pathtracer::update`: rebuild the global bind group against the current
output texture, camera buffer and environment map, then invalidate. -/
def Pathtracer.update (s : Pathtracer) (cameraBuffer : ResId)
    (envmap : EnvMapModel) : Pathtracer :=
  Pathtracer.invalidate
    { s with global_group :=
        create_global_group s.output cameraBuffer s.lds_buffer envmap }

/-- `Pathtracer::dispatch`: early-return if `sample >= max_sample_count`;
otherwise record a compute pass, increment `sample` (u32 wrap-around made
explicit), set `weight := 1.0 / sample`, push the new globals and dispatch
a workgroup grid of the output size divided by the tile size. Returns the
new state and the recorded commands. -/
def Pathtracer.dispatch (s : Pathtracer) (sceneGroup : ResId) :
    Pathtracer × List GPUCommand :=
  if s.globals.sample ≥ s.max_sample_count then (s, [])
  else
    let sample := (s.globals.sample + 1) % 2 ^ 32
    let globals := { s.globals with sample := sample, weight := 1 / (sample : ℚ) }
    ({ s with globals := globals },
     [GPUCommand.beginComputePass,
      GPUCommand.setPipeline s.pipeline,
      GPUCommand.setGlobalBindGroup s.global_group,
      GPUCommand.setSceneBindGroup sceneGroup,
      GPUCommand.setPushConstants globals,
      GPUCommand.dispatchWorkgroups (s.output.width / COMPUTE_SIZE)
        (s.output.height / COMPUTE_SIZE) 1])

/-- `n` successive `dispatch` calls, concatenating the recorded commands. -/
def Pathtracer.dispatchN (s : Pathtracer) (sceneGroup : ResId) :
    Nat → Pathtracer × List GPUCommand
  | 0 => (s, [])
  | n + 1 =>
    let step := Pathtracer.dispatch s sceneGroup
    let rest := Pathtracer.dispatchN step.1 sceneGroup n
    (rest.1, step.2 ++ rest.2)

/-- Extract the `(sample, weight)` pair from a push-constant upload. -/
def pushConstantPair : GPUCommand → Option (Nat × ℚ)
  | GPUCommand.setPushConstants g => some (g.sample, g.weight)
  | _ => none

/-- The observable `(sample_index, weight)` sequence produced by `n`
successive `dispatch` calls: the pairs carried by each recorded
push-constant upload, in order. -/
def Pathtracer.weightTrace (s : Pathtracer) (sceneGroup : ResId) (n : Nat) :
    List (Nat × ℚ) :=
  (Pathtracer.dispatchN s sceneGroup n).2.filterMap pushConstantPair

end Pathtracing

namespace Common

/-- A `winit::dpi::PhysicalSize<u32>`. -/
structure PhysicalSize where
  width : Nat
  height : Nat
deriving Repr, DecidableEq

/-- Observable side effect of `WGPUContext::resize`. -/
inductive SurfaceAction where
  | configure (config : Pathtracing.SurfaceConfig)
deriving Repr, DecidableEq

/-- `WGPUContext::resize`: if both dimensions of `new_size` are positive,
store them in the configuration and reconfigure the surface; otherwise do
nothing. Returns the new stored configuration and the surface calls
performed. -/
def WGPUContext.resize (config : Pathtracing.SurfaceConfig)
    (new_size : PhysicalSize) :
    Pathtracing.SurfaceConfig × List SurfaceAction :=
  if new_size.width > 0 ∧ new_size.height > 0 then
    let config := { config with width := new_size.width, height := new_size.height }
    (config, [SurfaceAction.configure config])
  else
    (config, [])

/-- Model of `wgpu::SurfaceError` (the error type of `App::render`). -/
inductive SurfaceError where
  | timeout
  | outdated
  | lost
  | outOfMemory
deriving Repr, DecidableEq

/-- The window events `AppHandler::window_event` distinguishes. -/
inductive WindowEventM where
  | closeRequested
  | escapePressed
  | resized (size : PhysicalSize)
  | redrawRequested
  | other
deriving Repr, DecidableEq

/-- Driver-side effects of one `window_event` call, in order. -/
inductive DriverAction where
  | handleInput
  | exitLoop
  | appResize (size : PhysicalSize)
  | appUpdate
  | appRender
  | requestRedraw
  | logError (e : SurfaceError)
deriving Repr, DecidableEq

/-- The `App` trait as consumed by `AppHandler`: pure transition functions
over an app state `α`, plus the window identity and the window's current
inner size. `render` both mutates the app and yields a result. -/
structure AppModel (α : Type) where
  windowId : Nat
  inner_size : α → PhysicalSize
  resize : α → PhysicalSize → α
  handle_input : α → WindowEventM → α
  update : α → α
  render : α → α × Except SurfaceError Unit

/-- `AppHandler::window_event`: skip if no app or a foreign window id;
otherwise forward the event to `handle_input`, then branch on the event
kind exactly as the `match` in the source. Returns the app state, whether
`event_loop.exit()` was called, and the driver actions in order. -/
def AppHandler.window_event {α : Type} (A : AppModel α) (app : Option α)
    (windowId : Nat) (event : WindowEventM) :
    Option α × Bool × List DriverAction :=
  match app with
  | none => (none, false, [])
  | some a =>
    if windowId = A.windowId then
      let a := A.handle_input a event
      match event with
      | WindowEventM.closeRequested =>
        (some a, true, [DriverAction.handleInput, DriverAction.exitLoop])
      | WindowEventM.escapePressed =>
        (some a, true, [DriverAction.handleInput, DriverAction.exitLoop])
      | WindowEventM.resized new_size =>
        (some (A.resize a new_size), false,
         [DriverAction.handleInput, DriverAction.appResize new_size,
          DriverAction.requestRedraw])
      | WindowEventM.redrawRequested =>
        let a := A.update a
        let r := A.render a
        let a := r.1
        match r.2 with
        | Except.ok _ =>
          (some a, false,
           [DriverAction.handleInput, DriverAction.appUpdate,
            DriverAction.appRender, DriverAction.requestRedraw])
        | Except.error SurfaceError.lost =>
          (some (A.resize a (A.inner_size a)), false,
           [DriverAction.handleInput, DriverAction.appUpdate,
            DriverAction.appRender, DriverAction.appResize (A.inner_size a),
            DriverAction.requestRedraw])
        | Except.error SurfaceError.outOfMemory =>
          (some a, true,
           [DriverAction.handleInput, DriverAction.appUpdate,
            DriverAction.appRender, DriverAction.exitLoop,
            DriverAction.requestRedraw])
        | Except.error e =>
          (some a, false,
           [DriverAction.handleInput, DriverAction.appUpdate,
            DriverAction.appRender, DriverAction.logError e,
            DriverAction.requestRedraw])
      | WindowEventM.other => (some a, false, [DriverAction.handleInput])
    else
      (some a, false, [])

/-- Model of `PerformanceMetrics<BUFFER_SIZE>`: timestamps and durations
are `Nat` ticks; the ring buffer array is a total function on indices
(only indices `< BUFFER_SIZE` are ever read or written). -/
structure PerformanceMetrics where
  last_frame : Option Nat
  curr_frame_time : Nat
  time_since_start : Nat
  frame_time_buffer : Nat → Nat
  idx : Nat
  n_frames : Nat
  summed_frame_time : Nat

/-- `PerformanceMetrics::default()`. -/
def PerformanceMetrics.default : PerformanceMetrics :=
  { last_frame := none
    curr_frame_time := 0
    time_since_start := 0
    frame_time_buffer := fun _ => 0
    idx := 0
    n_frames := 0
    summed_frame_time := 0 }

/-- `PerformanceMetrics::next_frame` for buffer capacity `C`, with the
current instant `now` passed explicitly. On the first call only the anchor
is recorded. Afterwards: `duration_since` is saturating subtraction, the
delta is added to the running sum, the count grows until `C` and then the
evicted slot is subtracted, the delta is written into the ring buffer and
the write index advances modulo `C`. -/
def PerformanceMetrics.next_frame (C : Nat) (s : PerformanceMetrics)
    (now : Nat) : PerformanceMetrics :=
  match s.last_frame with
  | none => { s with last_frame := some now }
  | some last_frame =>
    let delta := now - last_frame
    let summed := s.summed_frame_time + delta
    let nf :=
      if s.n_frames < C then (s.n_frames + 1, summed)
      else (s.n_frames, summed - s.frame_time_buffer s.idx)
    { last_frame := some now
      curr_frame_time := delta
      time_since_start := s.time_since_start + delta
      frame_time_buffer := fun j => if j = s.idx then delta else s.frame_time_buffer j
      idx := (s.idx + 1) % C
      n_frames := nf.1
      summed_frame_time := nf.2 }

/-- `PerformanceMetrics::pause`: forget the anchor. -/
def PerformanceMetrics.pause (s : PerformanceMetrics) : PerformanceMetrics :=
  { s with last_frame := none }

/-- `u32::checked_div`: `none` on a zero divisor. -/
def checked_div (a b : Nat) : Option Nat :=
  if b = 0 then none else some (a / b)

/-- `PerformanceMetrics::avg_frame_time`:
`summed_frame_time.checked_div(n_frames as u32).unwrap_or_default()` (the
`usize → u32` cast is the explicit wrap). -/
def PerformanceMetrics.avg_frame_time (s : PerformanceMetrics) : Nat :=
  (checked_div s.summed_frame_time (s.n_frames % 2 ^ 32)).getD 0

/-- Run `next_frame` over a sequence of observed instants, starting from
the default state. -/
def runFrames (C : Nat) (ts : List Nat) : PerformanceMetrics :=
  ts.foldl (PerformanceMetrics.next_frame C) PerformanceMetrics.default

/-- The frame deltas a sequence of instants induces: saturating differences
of consecutive timestamps. -/
def frameDeltas : List Nat → List Nat
  | t :: u :: rest => (u - t) :: frameDeltas (u :: rest)
  | _ => []

/-- Sum of the last `n` entries of a list. -/
def sumOfLast (n : Nat) (l : List Nat) : Nat :=
  (l.drop (l.length - n)).sum

/-- Invariant relating a `PerformanceMetrics` state to the full history
`ds` of frame deltas it has absorbed since the anchor at instant
`anchor`: the frame count is `min |ds| C`, the write index has gone round
the ring `|ds|` times, the running sum covers the last `C` deltas, and
each of the last `C` deltas sits in its ring slot. -/
def MetricsInv (C : Nat) (anchor : Nat) (ds : List Nat)
    (s : PerformanceMetrics) : Prop :=
  s.last_frame = some anchor ∧
  s.n_frames = min ds.length C ∧
  s.idx = ds.length % C ∧
  s.summed_frame_time = (ds.drop (ds.length - C)).sum ∧
  ∀ k, k < ds.length → ds.length ≤ k + C →
    s.frame_time_buffer (k % C) = ds.getD k 0

end Common

namespace Pathtracing

/-- The low-discrepancy table built in `Pathtracer::new`:
`iproduct!(0..n, 0..dims)` (row-major) mapped through
`sample_4d(sample_index, dimension_set, 0)`, where
`dims = bounces * LDS_PER_BOUNCE + 1` and `n = max_sample_count`.
`sample4d` stands for the pure external `sobol_burley::sample_4d`
function (over an arbitrary vector type `V`); the scramble seed is fixed
to `0` here, as in the source. -/
def ldsTable {V : Type} (sample4d : Nat → Nat → Nat → V)
    (max_sample_count bounces : Nat) : List V :=
  let dims := bounces * LDS_PER_BOUNCE + 1
  (List.range max_sample_count).flatMap fun sample_index =>
    (List.range dims).map fun dimension_set => sample4d sample_index dimension_set 0

/-- Closed form of the `(sample, weight)` pairs `n` dispatch calls push,
as a function of the starting sample index and `max_sample_count` alone. -/
def pairSeq (sample maxCount : Nat) : Nat → List (Nat × ℚ)
  | 0 => []
  | n + 1 =>
    if sample ≥ maxCount then []
    else
      ((sample + 1) % 2 ^ 32, 1 / (((sample + 1) % 2 ^ 32 : Nat) : ℚ)) ::
        pairSeq ((sample + 1) % 2 ^ 32) maxCount n

end Pathtracing

open Pathtracing Common

/-! ## Theorems -/

theorem natFloor_div_ofNat (x : ℚ) : ⌊x / 8⌋₊ = ⌊x⌋₊ / 8 := by
  have h := Nat.floor_div_nat x 8
  norm_num at h
  exact h

/-- C10: when no frame deltas have been recorded (`n_frames = 0`),
`avg_frame_time` returns the zero duration: the division is guarded by
`checked_div` with a default, so it is total. -/
theorem C10_avg_frame_time_zero_frames (s : Common.PerformanceMetrics)
    (h : s.n_frames = 0) : s.avg_frame_time = 0 := by
  simp [Common.PerformanceMetrics.avg_frame_time, Common.checked_div, h]

/-- Witness for C10 at the freshly constructed timer. -/
theorem C10_avg_frame_time_zero_frames_witness :
    Common.PerformanceMetrics.default.n_frames = 0 ∧
    Common.PerformanceMetrics.default.avg_frame_time = 0 :=
  ⟨rfl, C10_avg_frame_time_zero_frames Common.PerformanceMetrics.default rfl⟩

/-- C5: `WGPUContext::resize` is a no-op (stored configuration unchanged,
surface not reconfigured) when either dimension of `new_size` is zero;
otherwise it stores the new dimensions and reconfigures the surface with
the updated configuration. -/
theorem C5_context_resize (config : Pathtracing.SurfaceConfig)
    (new_size : Common.PhysicalSize) :
    (new_size.width = 0 ∨ new_size.height = 0 →
      Common.WGPUContext.resize config new_size = (config, [])) ∧
    (0 < new_size.width → 0 < new_size.height →
      (Common.WGPUContext.resize config new_size).1.width = new_size.width ∧
      (Common.WGPUContext.resize config new_size).1.height = new_size.height ∧
      (Common.WGPUContext.resize config new_size).2 =
        [Common.SurfaceAction.configure
          (Common.WGPUContext.resize config new_size).1]) := by
  constructor
  · intro h
    have hcond : ¬(new_size.width > 0 ∧ new_size.height > 0) := by
      rcases h with h | h <;> omega
    simp [Common.WGPUContext.resize, hcond]
  · intro h1 h2
    simp [Common.WGPUContext.resize, h1, h2]

/-- Witness for C5: a zero-width resize is dropped, a 800×600 resize is
stored. -/
theorem C5_context_resize_witness :
    Common.WGPUContext.resize ⟨640, 480⟩ ⟨0, 5⟩ = (⟨640, 480⟩, []) ∧
    (Common.WGPUContext.resize ⟨640, 480⟩ ⟨800, 600⟩).1.width = 800 :=
  ⟨(C5_context_resize ⟨640, 480⟩ ⟨0, 5⟩).1 (Or.inl rfl),
   ((C5_context_resize ⟨640, 480⟩ ⟨800, 600⟩).2 (by decide) (by decide)).1⟩

/-- C2: once `sample = max_sample_count`, any number of repeated
`dispatch` calls leaves the whole `Pathtracer` state unchanged and records
no GPU commands. -/
theorem C2_dispatch_saturated_noop (s : Pathtracing.Pathtracer)
    (scene : Pathtracing.ResId) (n : Nat)
    (h : s.globals.sample = s.max_sample_count) :
    Pathtracing.Pathtracer.dispatchN s scene n = (s, []) := by
  induction n with
  | zero => rfl
  | succ n ih =>
    have hd : Pathtracing.Pathtracer.dispatch s scene = (s, []) := by
      simp [Pathtracing.Pathtracer.dispatch, h]
    simp [Pathtracing.Pathtracer.dispatchN, hd, ih]

/-- Witness for C2: the default renderer advanced to 1024 samples absorbs
three more `dispatch` calls without change. -/
theorem C2_dispatch_saturated_noop_witness :
    ({ Pathtracing.Pathtracer.new ⟨640, 480⟩ 10 ⟨11, 12⟩ with
        globals := { Pathtracing.Globals.default with sample := 1024 } } :
      Pathtracing.Pathtracer).globals.sample =
      ({ Pathtracing.Pathtracer.new ⟨640, 480⟩ 10 ⟨11, 12⟩ with
          globals := { Pathtracing.Globals.default with sample := 1024 } } :
        Pathtracing.Pathtracer).max_sample_count ∧
    Pathtracing.Pathtracer.dispatchN
      { Pathtracing.Pathtracer.new ⟨640, 480⟩ 10 ⟨11, 12⟩ with
        globals := { Pathtracing.Globals.default with sample := 1024 } } 5 3 =
      ({ Pathtracing.Pathtracer.new ⟨640, 480⟩ 10 ⟨11, 12⟩ with
        globals := { Pathtracing.Globals.default with sample := 1024 } }, []) :=
  ⟨rfl, C2_dispatch_saturated_noop _ 5 3 rfl⟩

/-- C3: a `dispatch` below saturation increments `sample` by one and sets
the weight pushed to the kernel to exactly `1 / sample` for the
incremented `sample`; the pushed constants are recorded. -/
theorem C3_dispatch_weight (s : Pathtracing.Pathtracer)
    (scene : Pathtracing.ResId)
    (h : s.globals.sample < s.max_sample_count)
    (hmax : s.max_sample_count < 2 ^ 32) :
    (Pathtracing.Pathtracer.dispatch s scene).1.globals.sample =
      s.globals.sample + 1 ∧
    (Pathtracing.Pathtracer.dispatch s scene).1.globals.weight =
      1 / ((s.globals.sample + 1 : Nat) : ℚ) ∧
    Pathtracing.GPUCommand.setPushConstants
        (Pathtracing.Pathtracer.dispatch s scene).1.globals ∈
      (Pathtracing.Pathtracer.dispatch s scene).2 := by
  have hng : ¬ s.globals.sample ≥ s.max_sample_count := Nat.not_le.mpr h
  have hmax' : s.max_sample_count < 4294967296 := by
    norm_num at hmax
    exact hmax
  have hmod : (s.globals.sample + 1) % 4294967296 = s.globals.sample + 1 :=
    Nat.mod_eq_of_lt (by omega)
  refine ⟨?_, ?_, ?_⟩ <;>
    simp [Pathtracing.Pathtracer.dispatch, hng, hmod]

/-- Witness for C3 on the freshly constructed renderer. -/
theorem C3_dispatch_weight_witness :
    (Pathtracing.Pathtracer.new ⟨640, 480⟩ 10 ⟨11, 12⟩).globals.sample <
      (Pathtracing.Pathtracer.new ⟨640, 480⟩ 10 ⟨11, 12⟩).max_sample_count ∧
    (Pathtracing.Pathtracer.new ⟨640, 480⟩ 10 ⟨11, 12⟩).max_sample_count < 2 ^ 32 ∧
    (Pathtracing.Pathtracer.dispatch
        (Pathtracing.Pathtracer.new ⟨640, 480⟩ 10 ⟨11, 12⟩) 5).1.globals.weight =
      1 / (((Pathtracing.Pathtracer.new ⟨640, 480⟩ 10 ⟨11, 12⟩).globals.sample + 1 :
        Nat) : ℚ) :=
  ⟨by decide, by decide,
   (C3_dispatch_weight (Pathtracing.Pathtracer.new ⟨640, 480⟩ 10 ⟨11, 12⟩) 5
      (by decide) (by decide)).2.1⟩

/-- C6: the render target produced by `Pathtracer::resize` — and the one
built at construction by `Pathtracer::new` — measures
`⌊size * resolution_factor / 8⌋ * 8` in each dimension, the scaled size
rounded down to a multiple of the 8×8 tile. -/
theorem C6_render_target_size (s : Pathtracing.Pathtracer)
    (config : Pathtracing.SurfaceConfig) (fresh : Pathtracing.ResId)
    (cam : Pathtracing.ResId) (envmap : Pathtracing.EnvMapModel) :
    (Pathtracing.Pathtracer.resize s config fresh).output.width =
      ⌊(config.width : ℚ) * s.resolution_factor / 8⌋₊ * 8 ∧
    (Pathtracing.Pathtracer.resize s config fresh).output.height =
      ⌊(config.height : ℚ) * s.resolution_factor / 8⌋₊ * 8 ∧
    (Pathtracing.Pathtracer.new config cam envmap).output.width =
      ⌊(config.width : ℚ) * Pathtracing.defaultResolutionFactor / 8⌋₊ * 8 ∧
    (Pathtracing.Pathtracer.new config cam envmap).output.height =
      ⌊(config.height : ℚ) * Pathtracing.defaultResolutionFactor / 8⌋₊ * 8 := by
  refine ⟨?_, ?_, ?_, ?_⟩ <;>
    simp [Pathtracing.Pathtracer.resize, Pathtracing.Pathtracer.new,
      Pathtracing.create_output_texture, Pathtracing.COMPUTE_SIZE,
      natFloor_div_ofNat]

/-- C1 (violated by the code): `Pathtracer::resize` replaces the output
texture but does not rebuild the global bind group; afterwards the bind
group still references the replaced texture. Shown at a concrete initial
renderer after one resize with a fresh texture identity. -/
theorem C1_resize_leaves_stale_binding :
    (Pathtracing.Pathtracer.resize
        (Pathtracing.Pathtracer.new ⟨640, 480⟩ 10 ⟨11, 12⟩) ⟨640, 480⟩ 4).global_group =
      (Pathtracing.Pathtracer.new ⟨640, 480⟩ 10 ⟨11, 12⟩).global_group ∧
    (Pathtracing.Pathtracer.resize
        (Pathtracing.Pathtracer.new ⟨640, 480⟩ 10 ⟨11, 12⟩) ⟨640, 480⟩ 4).global_group.outputView ≠
      (Pathtracing.Pathtracer.resize
        (Pathtracing.Pathtracer.new ⟨640, 480⟩ 10 ⟨11, 12⟩) ⟨640, 480⟩ 4).output.id := by
  decide

theorem weightTrace_succ (s : Pathtracing.Pathtracer) (sc : Pathtracing.ResId)
    (n : Nat) :
    Pathtracing.Pathtracer.weightTrace s sc (n + 1) =
      (Pathtracing.Pathtracer.dispatch s sc).2.filterMap Pathtracing.pushConstantPair ++
        Pathtracing.Pathtracer.weightTrace (Pathtracing.Pathtracer.dispatch s sc).1 sc n := by
  simp [Pathtracing.Pathtracer.weightTrace, Pathtracing.Pathtracer.dispatchN,
    List.filterMap_append]

theorem weightTrace_closed (n : Nat) :
    ∀ (s : Pathtracing.Pathtracer) (sc : Pathtracing.ResId),
      Pathtracing.Pathtracer.weightTrace s sc n =
        Pathtracing.pairSeq s.globals.sample s.max_sample_count n := by
  induction n with
  | zero => intro s sc; rfl
  | succ n ih =>
    intro s sc
    rw [weightTrace_succ]
    by_cases hsat : s.globals.sample ≥ s.max_sample_count
    · have e : Pathtracing.Pathtracer.dispatch s sc = (s, []) := by
        simp [Pathtracing.Pathtracer.dispatch, hsat]
      rw [e]
      simp only [List.filterMap_nil, List.nil_append, ih]
      rw [Pathtracing.pairSeq, if_pos hsat]
      have : ∀ m, Pathtracing.pairSeq s.globals.sample s.max_sample_count m = [] := by
        intro m
        cases m with
        | zero => rfl
        | succ m => rw [Pathtracing.pairSeq, if_pos hsat]
      rw [this]
    · rw [ih]
      simp [Pathtracing.Pathtracer.dispatch, hsat, Pathtracing.pushConstantPair,
        Pathtracing.pairSeq]

/-- C4: `invalidate` (and `update`, which calls it) resets the sample
index to 0 from any prior state, and the `(sample, weight)` sequence that
any number of subsequent `dispatch` calls pushes to the kernel is exactly
the one a freshly constructed renderer pushes. -/
theorem C4_invalidate_replays_fresh (s : Pathtracing.Pathtracer)
    (cam cam' : Pathtracing.ResId) (envmap envmap' : Pathtracing.EnvMapModel)
    (config : Pathtracing.SurfaceConfig) (sc₁ sc₂ : Pathtracing.ResId) (n : Nat)
    (hmax : s.max_sample_count = 1024) :
    (Pathtracing.Pathtracer.invalidate s).globals.sample = 0 ∧
    (Pathtracing.Pathtracer.update s cam envmap).globals.sample = 0 ∧
    Pathtracing.Pathtracer.weightTrace (Pathtracing.Pathtracer.invalidate s) sc₁ n =
      Pathtracing.Pathtracer.weightTrace
        (Pathtracing.Pathtracer.new config cam' envmap') sc₂ n := by
  refine ⟨rfl, rfl, ?_⟩
  rw [weightTrace_closed, weightTrace_closed]
  simp [Pathtracing.Pathtracer.invalidate, Pathtracing.Pathtracer.new,
    Pathtracing.Globals.default, hmax]

/-- Witness for C4: a renderer mid-accumulation (sample 700) replays the
fresh sequence after `invalidate`. -/
theorem C4_invalidate_replays_fresh_witness :
    ({ Pathtracing.Pathtracer.new ⟨640, 480⟩ 10 ⟨11, 12⟩ with
        globals := { Pathtracing.Globals.default with sample := 700 } } :
      Pathtracing.Pathtracer).max_sample_count = 1024 ∧
    Pathtracing.Pathtracer.weightTrace
        (Pathtracing.Pathtracer.invalidate
          { Pathtracing.Pathtracer.new ⟨640, 480⟩ 10 ⟨11, 12⟩ with
            globals := { Pathtracing.Globals.default with sample := 700 } }) 5 2 =
      Pathtracing.Pathtracer.weightTrace
        (Pathtracing.Pathtracer.new ⟨320, 200⟩ 20 ⟨21, 22⟩) 6 2 :=
  ⟨rfl,
   (C4_invalidate_replays_fresh _ 10 20 ⟨11, 12⟩ ⟨21, 22⟩ ⟨320, 200⟩ 5 6 2 rfl).2.2⟩

/-- C9: on a redraw-requested event for the app's window, the driver calls
`update` then `render` and maps the result: on success it requests another
redraw; on `Lost` it resizes the app with the window's current inner size
and continues; on `OutOfMemory` it exits the event loop; on any other
error it logs the error and continues. -/
theorem C9_redraw_result_handling {α : Type} (A : Common.AppModel α) (a : α)
    (windowId : Nat) (h : windowId = A.windowId) :
    ((A.render (A.update (A.handle_input a Common.WindowEventM.redrawRequested))).2 =
        Except.ok () →
      Common.AppHandler.window_event A (some a) windowId
          Common.WindowEventM.redrawRequested =
        (some (A.render (A.update
            (A.handle_input a Common.WindowEventM.redrawRequested))).1, false,
         [Common.DriverAction.handleInput, Common.DriverAction.appUpdate,
          Common.DriverAction.appRender, Common.DriverAction.requestRedraw])) ∧
    ((A.render (A.update (A.handle_input a Common.WindowEventM.redrawRequested))).2 =
        Except.error Common.SurfaceError.lost →
      Common.AppHandler.window_event A (some a) windowId
          Common.WindowEventM.redrawRequested =
        (some (A.resize
            (A.render (A.update
              (A.handle_input a Common.WindowEventM.redrawRequested))).1
            (A.inner_size (A.render (A.update
              (A.handle_input a Common.WindowEventM.redrawRequested))).1)), false,
         [Common.DriverAction.handleInput, Common.DriverAction.appUpdate,
          Common.DriverAction.appRender,
          Common.DriverAction.appResize (A.inner_size (A.render (A.update
            (A.handle_input a Common.WindowEventM.redrawRequested))).1),
          Common.DriverAction.requestRedraw])) ∧
    ((A.render (A.update (A.handle_input a Common.WindowEventM.redrawRequested))).2 =
        Except.error Common.SurfaceError.outOfMemory →
      Common.AppHandler.window_event A (some a) windowId
          Common.WindowEventM.redrawRequested =
        (some (A.render (A.update
            (A.handle_input a Common.WindowEventM.redrawRequested))).1, true,
         [Common.DriverAction.handleInput, Common.DriverAction.appUpdate,
          Common.DriverAction.appRender, Common.DriverAction.exitLoop,
          Common.DriverAction.requestRedraw])) ∧
    (∀ e : Common.SurfaceError, e ≠ Common.SurfaceError.lost →
      e ≠ Common.SurfaceError.outOfMemory →
      (A.render (A.update (A.handle_input a Common.WindowEventM.redrawRequested))).2 =
        Except.error e →
      Common.AppHandler.window_event A (some a) windowId
          Common.WindowEventM.redrawRequested =
        (some (A.render (A.update
            (A.handle_input a Common.WindowEventM.redrawRequested))).1, false,
         [Common.DriverAction.handleInput, Common.DriverAction.appUpdate,
          Common.DriverAction.appRender, Common.DriverAction.logError e,
          Common.DriverAction.requestRedraw])) := by
  subst h
  refine ⟨?_, ?_, ?_, ?_⟩
  · intro hr
    simp [Common.AppHandler.window_event, hr]
  · intro hr
    simp [Common.AppHandler.window_event, hr]
  · intro hr
    simp [Common.AppHandler.window_event, hr]
  · intro e he1 he2 hr
    cases e with
    | timeout => simp [Common.AppHandler.window_event, hr]
    | outdated => simp [Common.AppHandler.window_event, hr]
    | lost => exact absurd rfl he1
    | outOfMemory => exact absurd rfl he2

/-- Witness for C9: a concrete app whose render reports a lost surface is
resized with the window's inner size and the loop continues. -/
theorem C9_redraw_result_handling_witness :
    Common.AppHandler.window_event
      ({ windowId := 0, inner_size := fun _ => ⟨7, 9⟩,
         resize := fun s sz => s + sz.width,
         handle_input := fun s _ => s + 1,
         update := fun s => s + 10,
         render := fun s => (s + 100, Except.error Common.SurfaceError.lost) } :
        Common.AppModel Nat)
      (some 0) 0 Common.WindowEventM.redrawRequested =
      (some 118, false,
       [Common.DriverAction.handleInput, Common.DriverAction.appUpdate,
        Common.DriverAction.appRender, Common.DriverAction.appResize ⟨7, 9⟩,
        Common.DriverAction.requestRedraw]) := by
  have h := (C9_redraw_result_handling
    ({ windowId := 0, inner_size := fun _ => ⟨7, 9⟩,
       resize := fun s sz => s + sz.width,
       handle_input := fun s _ => s + 1,
       update := fun s => s + 10,
       render := fun s => (s + 100, Except.error Common.SurfaceError.lost) } :
      Common.AppModel Nat) 0 0 rfl).2.1 rfl
  simpa using h

theorem range_flatMap_tile {V : Type} (f : Nat → Nat → Nat → V) (dims : Nat)
    (hd : 0 < dims) (n : Nat) :
    (List.range n).flatMap (fun i => (List.range dims).map fun d => f i d 0) =
      (List.range (n * dims)).map fun k => f (k / dims) (k % dims) 0 := by
  induction n with
  | zero => simp
  | succ n ih =>
    rw [List.range_succ, List.flatMap_append, ih,
      show (n + 1) * dims = n * dims + dims by ring,
      List.range_add, List.map_append, List.map_map]
    congr 1
    simp only [List.flatMap_cons, List.flatMap_nil, List.append_nil]
    apply List.map_congr_left
    intro d hdm
    have hdlt : d < dims := List.mem_range.mp hdm
    have h1 : (n * dims + d) / dims = n := by
      rw [Nat.mul_comm n dims, Nat.mul_add_div hd, Nat.div_eq_of_lt hdlt]
      omega
    have h2 : (n * dims + d) % dims = d := by
      rw [Nat.mul_comm n dims, Nat.mul_add_mod, Nat.mod_eq_of_lt hdlt]
    simp [Function.comp, h1, h2]

/-- C7: the sampling table is a deterministic function of
`(max_sample_count, bounce_count)` alone — identical inputs give identical
tables — with exactly `N * (2B + 1)` entries, each obtained from the
external sampler at scramble seed 0 (row-major over
`(sample_index, dimension_set)`). -/
theorem C7_lds_table_deterministic {V : Type} (f : Nat → Nat → Nat → V)
    (N₁ B₁ N₂ B₂ : Nat) (hN : N₁ = N₂) (hB : B₁ = B₂) :
    Pathtracing.ldsTable f N₁ B₁ = Pathtracing.ldsTable f N₂ B₂ ∧
    (Pathtracing.ldsTable f N₁ B₁).length = N₁ * (2 * B₁ + 1) ∧
    Pathtracing.ldsTable f N₁ B₁ = (List.range (N₁ * (2 * B₁ + 1))).map
      (fun k => f (k / (2 * B₁ + 1)) (k % (2 * B₁ + 1)) 0) := by
  subst hN
  subst hB
  have hc : Pathtracing.ldsTable f N₁ B₁ = (List.range (N₁ * (2 * B₁ + 1))).map
      (fun k => f (k / (2 * B₁ + 1)) (k % (2 * B₁ + 1)) 0) := by
    rw [Pathtracing.ldsTable]
    rw [show B₁ * Pathtracing.LDS_PER_BOUNCE + 1 = 2 * B₁ + 1 by
      rw [Pathtracing.LDS_PER_BOUNCE]; ring]
    exact range_flatMap_tile f (2 * B₁ + 1) (by omega) N₁
  refine ⟨rfl, ?_, hc⟩
  rw [hc]
  simp

/-- Witness for C7 at `(N, B) = (2, 1)` over the index-recording sampler. -/
theorem C7_lds_table_deterministic_witness :
    (2 : Nat) = 2 ∧ (1 : Nat) = 1 ∧
    (Pathtracing.ldsTable (fun i d s => (i, d, s)) 2 1).length = 2 * (2 * 1 + 1) :=
  ⟨rfl, rfl,
   (C7_lds_table_deterministic (fun i d s => (i, d, s)) 2 1 2 1 rfl rfl).2.1⟩

theorem mod_ne_of_between (k m C : Nat) (h1 : k < m) (h2 : m < k + C) :
    k % C ≠ m % C := by
  intro he
  have hd : C ∣ m - k := (Nat.modEq_iff_dvd' (Nat.le_of_lt h1)).mp he
  have := Nat.le_of_dvd (by omega) hd
  omega

theorem frameDeltas_length (ts : List Nat) :
    (Common.frameDeltas ts).length = ts.length - 1 := by
  induction ts with
  | nil => rfl
  | cons t rest ih =>
    cases rest with
    | nil => rfl
    | cons u us =>
      simp only [Common.frameDeltas, List.length_cons] at ih ⊢
      omega

theorem metricsInv_step (C anchor now : Nat) (ds : List Nat)
    (s : Common.PerformanceMetrics) (hC : 0 < C)
    (h : Common.MetricsInv C anchor ds s) :
    Common.MetricsInv C now (ds ++ [now - anchor])
      (Common.PerformanceMetrics.next_frame C s now) := by
  obtain ⟨hlf, hn, hidx, hsum, hbuf⟩ := h
  have hstep : Common.PerformanceMetrics.next_frame C s now =
      { last_frame := some now
        curr_frame_time := now - anchor
        time_since_start := s.time_since_start + (now - anchor)
        frame_time_buffer := fun j =>
          if j = s.idx then now - anchor else s.frame_time_buffer j
        idx := (s.idx + 1) % C
        n_frames := if s.n_frames < C then s.n_frames + 1 else s.n_frames
        summed_frame_time :=
          if s.n_frames < C then s.summed_frame_time + (now - anchor)
          else s.summed_frame_time + (now - anchor) - s.frame_time_buffer s.idx } := by
    simp only [Common.PerformanceMetrics.next_frame, hlf]
    by_cases hcase : s.n_frames < C <;> simp [hcase]
  rw [hstep]
  have hdslen : (ds ++ [now - anchor]).length = ds.length + 1 := by simp
  refine ⟨rfl, ?_, ?_, ?_, ?_⟩
  · show (if s.n_frames < C then s.n_frames + 1 else s.n_frames) =
      min (ds ++ [now - anchor]).length C
    rw [hdslen]
    by_cases hcase : s.n_frames < C
    · rw [if_pos hcase]; omega
    · rw [if_neg hcase]; omega
  · show (s.idx + 1) % C = (ds ++ [now - anchor]).length % C
    rw [hdslen, hidx]
    exact Nat.mod_add_mod ds.length C 1
  · show (if s.n_frames < C then s.summed_frame_time + (now - anchor)
        else s.summed_frame_time + (now - anchor) - s.frame_time_buffer s.idx) =
      ((ds ++ [now - anchor]).drop ((ds ++ [now - anchor]).length - C)).sum
    rw [hdslen]
    by_cases hcase : s.n_frames < C
    · rw [if_pos hcase]
      have h1 : ds.length + 1 - C = 0 := by omega
      have h2 : ds.length - C = 0 := by omega
      rw [h1, List.drop_zero, List.sum_append, hsum, h2, List.drop_zero]
      simp
    · rw [if_neg hcase]
      have hm : C ≤ ds.length := by omega
      have hmc : ds.length - C < ds.length := by omega
      have hbv : s.frame_time_buffer s.idx = ds.getD (ds.length - C) 0 := by
        have hmod : (ds.length - C) % C = ds.length % C := by
          have he : ds.length - C + C = ds.length := by omega
          calc (ds.length - C) % C = (ds.length - C + C) % C :=
                (Nat.add_mod_right _ _).symm
            _ = ds.length % C := by rw [he]
        rw [hidx, ← hmod]
        exact hbuf (ds.length - C) hmc (by omega)
      have hle : ds.length + 1 - C ≤ ds.length := by omega
      rw [hbv, hsum, List.drop_append_of_le_length hle, List.sum_append]
      have hdrop : ds.drop (ds.length - C) =
          ds.getD (ds.length - C) 0 :: ds.drop (ds.length - C + 1) := by
        rw [List.drop_eq_getElem_cons hmc, List.getD_eq_getElem ds 0 hmc]
      rw [hdrop]
      have hidx2 : ds.length + 1 - C = ds.length - C + 1 := by omega
      rw [hidx2]
      simp only [List.sum_cons, List.sum_nil]
      omega
  · intro k hk1 hk2
    rw [hdslen] at hk1 hk2
    show (if k % C = s.idx then now - anchor else s.frame_time_buffer (k % C)) =
      (ds ++ [now - anchor]).getD k 0
    by_cases hkm : k = ds.length
    · subst hkm
      have hif : ds.length % C = s.idx := hidx.symm
      rw [if_pos hif,
        List.getD_append_right ds [now - anchor] 0 ds.length (Nat.le_refl _)]
      simp
    · have hk : k < ds.length := by omega
      have hne2 : ¬ (k % C = s.idx) := by
        rw [hidx]
        exact mod_ne_of_between k ds.length C hk (by omega)
      rw [if_neg hne2, List.getD_append ds [now - anchor] 0 k hk]
      exact hbuf k hk (by omega)

theorem metricsInv_run (C : Nat) (hC : 0 < C) (us : List Nat) :
    ∀ (anchor : Nat) (ds : List Nat) (s : Common.PerformanceMetrics),
      Common.MetricsInv C anchor ds s →
      ∃ t, Common.MetricsInv C t (ds ++ Common.frameDeltas (anchor :: us))
        (us.foldl (Common.PerformanceMetrics.next_frame C) s) := by
  induction us with
  | nil =>
    intro anchor ds s h
    exact ⟨anchor, by simpa [Common.frameDeltas] using h⟩
  | cons u us ih =>
    intro anchor ds s h
    have h1 := metricsInv_step C anchor u ds s hC h
    obtain ⟨t, ht⟩ := ih u (ds ++ [u - anchor]) _ h1
    refine ⟨t, ?_⟩
    have heq : ds ++ Common.frameDeltas (anchor :: u :: us) =
        (ds ++ [u - anchor]) ++ Common.frameDeltas (u :: us) := by
      rw [show Common.frameDeltas (anchor :: u :: us) =
        (u - anchor) :: Common.frameDeltas (u :: us) from rfl]
      rw [List.append_cons]
    rw [heq]
    exact ht

/-- C8: after exactly `K ≥ 1` calls to `next_frame` (the first only
records the anchor) with buffer capacity `C`, the frame count is
`min (K-1) C` and the running sum equals the sum of the last
`min (K-1) C` recorded frame deltas. -/
theorem C8_frame_timer_window (C : Nat) (ts : List Nat) (hC : 0 < C)
    (hts : 0 < ts.length) :
    (Common.runFrames C ts).n_frames = min (ts.length - 1) C ∧
    (Common.runFrames C ts).summed_frame_time =
      Common.sumOfLast (min (ts.length - 1) C) (Common.frameDeltas ts) := by
  cases ts with
  | nil => simp at hts
  | cons t us =>
    have h0 : Common.MetricsInv C t []
        (Common.PerformanceMetrics.next_frame C Common.PerformanceMetrics.default t) := by
      have hfirst : Common.PerformanceMetrics.next_frame C
          Common.PerformanceMetrics.default t =
          { Common.PerformanceMetrics.default with last_frame := some t } := rfl
      rw [hfirst]
      refine ⟨rfl, by simp [Common.PerformanceMetrics.default],
        by simp [Common.PerformanceMetrics.default], ?_, ?_⟩
      · show (Common.PerformanceMetrics.default).summed_frame_time =
          (List.drop (List.length [] - C) []).sum
        simp [Common.PerformanceMetrics.default]
      · intro k hk
        exact absurd hk (Nat.not_lt_zero k)
    obtain ⟨tEnd, hInv⟩ := metricsInv_run C hC us t [] _ h0
    obtain ⟨_, hn, _, hsum, _⟩ := hInv
    simp only [List.nil_append] at hn hsum
    have hlen : (Common.frameDeltas (t :: us)).length = us.length := by
      rw [frameDeltas_length]
      simp
    have hrun : Common.runFrames C (t :: us) =
        us.foldl (Common.PerformanceMetrics.next_frame C)
          (Common.PerformanceMetrics.next_frame C Common.PerformanceMetrics.default t) := rfl
    have hlen2 : (t :: us).length - 1 = us.length := by simp
    constructor
    · rw [hrun, hn, hlen, hlen2]
    · rw [hrun, hsum, Common.sumOfLast, hlen, hlen2]
      have harg : us.length - C = us.length - min us.length C := by omega
      rw [harg]

/-- Witness for C8: capacity 2, four timestamps (three deltas 3, 5, 2):
the window holds the last two deltas with sum 7. -/
theorem C8_frame_timer_window_witness :
    (0 : Nat) < 2 ∧ (0 : Nat) < ([10, 13, 18, 20] : List Nat).length ∧
    (Common.runFrames 2 [10, 13, 18, 20]).n_frames = 2 ∧
    (Common.runFrames 2 [10, 13, 18, 20]).summed_frame_time = 7 := by
  have h := C8_frame_timer_window 2 [10, 13, 18, 20] (by decide) (by decide)
  refine ⟨by decide, by decide, ?_, ?_⟩
  · rw [h.1]
    rfl
  · rw [h.2]
    rfl
